import Mathlib

/-!
Verification development for the toronto-map repository.

This file gives a shallow embedding of the API route handlers
(`src/app/api/*/route.ts`) and of the client-side map logic
(`src/app/page.tsx`, `src/components/AddressTable.tsx`), and proves
properties of the embedded definitions.

Conventions of the embedding:
* JavaScript numbers are modelled by `JSNum` (a rational, `Infinity`,
  `-Infinity`, or `NaN`); coordinates, zoom levels and tolerances are
  rationals.
* Each route handler is a pure function from its (already URL-decoded)
  parameters and a database oracle to a pair `(response, statement log)`.
  The statement log records, in order, every statement the handler sends
  over its database connection (`BEGIN`, `SET LOCAL statement_timeout`,
  data queries, `COMMIT`, `ROLLBACK`), so that "no query issued" is the
  statement `log = []`.
* The outcome of each SQL data query against the external PostGIS store
  is an input (`QueryOutcome`): it either yields rows, raises the
  statement-timeout error (pg code 57014), or raises another error.
  Where a query's result set is computed by the handler's own SQL over
  data we model (the parcels bbox query), the rows are computed from a
  modelled table; the PostGIS `&&` bbox operator is bounding-box
  intersection and `ST_Simplify` is modelled as a tagged wrapper
  recording the tolerance it was invoked with.
-/

namespace TorontoMap

/-- A JavaScript number: a finite rational, `Infinity`, `-Infinity`, or `NaN`.
`parseFloat`/`Number` results are values of this type. -/
inductive JSNum where
  | num (q : ℚ)
  | posInf
  | negInf
  | nan
deriving DecidableEq, Repr

/-- JavaScript `Number.isFinite`. -/
def JSNum.isFinite : JSNum → Bool
  | .num _ => true
  | _ => false

/-- JavaScript truthiness of a number: `0` and `NaN` are falsy, every other
number — including `Infinity` and `-Infinity` — is truthy. -/
def JSNum.truthy : JSNum → Bool
  | .num q => q != 0
  | .posInf => true
  | .negInf => true
  | .nan => false

/-- From `parcels/route.ts` (`parseZoom`) and `db/route.ts`: parse the `z`
query parameter. The argument is the `Number(...)` value of the parameter
(`none` when the parameter is absent, in which case the source uses the
default string "12"). `Number.isFinite(z) ? Math.max(0, Math.min(22, z)) : 12`. -/
def parseZoom : Option JSNum → ℚ
  | none => 12
  | some (.num q) => max 0 (min 22 q)
  | some _ => 12

/-- From `parcels/route.ts` (`parseBbox`) and `db/route.ts`: the argument is
the comma-split, `Number`-mapped `bbox` parameter (`none` when absent or
empty). The source accepts it iff it has length 4 and every entry is finite. -/
def parseBbox (a? : Option (List JSNum)) : Option (ℚ × ℚ × ℚ × ℚ) :=
  match a? with
  | none => none
  | some a =>
    if a.length = 4 ∧ a.all JSNum.isFinite then
      match a with
      | [.num x1, .num y1, .num x2, .num y2] => some (x1, y1, x2, y2)
      | _ => none
    else none

/-- From `db/route.ts` (`parseParcelId`): the `parcel_id` query parameter,
already passed through `Number`; accepted iff finite and positive. -/
def parseParcelId : Option JSNum → Option ℚ
  | none => none
  | some (.num q) => if 0 < q then some q else none
  | some _ => none

/-- From `parcels/route.ts` (`toleranceForZoom`): zoom-dependent geometry
simplification tolerance in degrees. -/
def toleranceForZoom (z : ℚ) : ℚ :=
  if z < 9 then 0.0003
  else if z < 11 then 0.0001
  else if z < 13 then 0.00005
  else if z < 15 then 0.00002
  else 0.000005

end TorontoMap

namespace TorontoMap

/-- A polygon geometry from the `parcels` table, carrying exactly the data
the modelled SQL consults: its bounding box (for the PostGIS `&&` operator),
its `ST_Area`, and an identity tag distinguishing shapes. -/
structure RawGeom where
  minX : ℚ
  minY : ℚ
  maxX : ℚ
  maxY : ℚ
  area : ℚ
  shape : ℕ
deriving DecidableEq, Repr

/-- The result of `ST_Simplify(geom, tol)`: the source geometry tagged with
the tolerance used. -/
structure SimplifiedGeom where
  source : RawGeom
  tol : ℚ
deriving DecidableEq, Repr

/-- PostGIS `ST_Simplify`. -/
def ST_Simplify (g : RawGeom) (tol : ℚ) : SimplifiedGeom := ⟨g, tol⟩

/-- PostGIS `geom && ST_MakeEnvelope(minX,minY,maxX,maxY,4326)`: bounding-box
intersection. -/
def bboxIntersects (g : RawGeom) (minX minY maxX maxY : ℚ) : Bool :=
  g.minX ≤ maxX && minX ≤ g.maxX && g.minY ≤ maxY && minY ≤ g.maxY

/-- A row of the `parcels` table. -/
structure Parcel where
  objectid : ℤ
  f_type : Option String
  geom : RawGeom
deriving DecidableEq, Repr

/-- A parcel feature of the `/api/parcels` GeoJSON response. -/
structure ParcelFeature where
  parcel_id : ℤ
  f_type : Option String
  geometry : SimplifiedGeom
deriving DecidableEq, Repr

/-- A GeoJSON FeatureCollection of parcel features. -/
structure ParcelFC where
  features : List ParcelFeature
deriving DecidableEq, Repr

/-- A statement sent on the database connection, as logged by a handler.
The search endpoint's LIKE query carries a string parameter, so it gets its
own constructor recording the trimmed query text and the clamped limit. -/
inductive Stmt where
  | begin
  | setStatementTimeout (ms : ℕ)
  | commit
  | rollback
  | tableCheck
  | query (name : String) (args : List JSNum)
  | searchQuery (q : String) (limit : ℚ)
deriving DecidableEq, Repr

/-- An HTTP response: either a 200 with a typed body, or an error status with
the JSON `error` message. -/
inductive Response (α : Type) where
  | ok (body : α)
  | error (status : ℕ) (msg : String)
deriving DecidableEq, Repr

/-- The fate of a data query at the external database: rows, the
statement-timeout error (pg code 57014), or any other error. -/
inductive QueryOutcome (α : Type) where
  | ok (rows : α)
  | timeout
  | failure
deriving DecidableEq, Repr

/-- Whether a query outcome succeeded. -/
def QueryOutcome.isOk {α : Type} : QueryOutcome α → Bool
  | .ok _ => true
  | _ => false

/-- The `ORDER BY ST_Area(p.geom) DESC` comparison of the parcels query. -/
def areaDesc (p q : Parcel) : Prop := q.geom.area ≤ p.geom.area

instance : DecidableRel areaDesc :=
  fun p q => inferInstanceAs (Decidable (q.geom.area ≤ p.geom.area))

instance : IsTotal Parcel areaDesc :=
  ⟨fun p q => le_total q.geom.area p.geom.area⟩

instance : IsTrans Parcel areaDesc :=
  ⟨fun _ _ _ h1 h2 => le_trans h2 h1⟩

/-- The candidate rows of the `/api/parcels` SQL before the `LIMIT`: the
`parcels` table filtered by bbox intersection and ordered by descending
`ST_Area`. -/
def parcelCandidates (parcels : List Parcel) (minX minY maxX maxY : ℚ) :
    List Parcel :=
  (parcels.filter fun p =>
    bboxIntersects p.geom minX minY maxX maxY).insertionSort areaDesc

/-- Semantics of the SQL of `/api/parcels`: filter the `parcels` table by
bbox intersection, order by descending area, cap at 2000 rows, and simplify
each geometry at the given tolerance. -/
def parcelsQueryRows (parcels : List Parcel) (minX minY maxX maxY tol : ℚ) :
    List ParcelFeature :=
  ((parcelCandidates parcels minX minY maxX maxY).take 2000).map
    fun p => ⟨p.objectid, p.f_type, ST_Simplify p.geom tol⟩

/-- Database oracle for `/api/parcels`: the contents of the `parcels` table
and the fate of the single data query. -/
structure ParcelsDB where
  parcels : List Parcel
  outcome : QueryOutcome Unit
deriving DecidableEq, Repr

/-- The `GET` handler of `app/api/parcels/route.ts`. Parameters are the
split-and-parsed `bbox` and the `Number` value of `z`. Returns the response
and the ordered statement log of the database connection. -/
def parcelsGET (db : ParcelsDB) (bboxParam : Option (List JSNum))
    (zParam : Option JSNum) : Response ParcelFC × List Stmt :=
  let z := parseZoom zParam
  match parseBbox bboxParam with
  | none => (.error 400 "bbox=minX,minY,maxX,maxY required", [])
  | some (minX, minY, maxX, maxY) =>
    if z < 10 then
      (.error 400 "Zoom in to load parcels", [])
    else
      let tol := toleranceForZoom z
      let stmts : List Stmt :=
        [.begin, .setStatementTimeout 2500,
         .query "parcels_bbox" [.num minX, .num minY, .num maxX, .num maxY, .num tol]]
      match db.outcome with
      | .ok _ =>
        (.ok ⟨parcelsQueryRows db.parcels minX minY maxX maxY tol⟩,
         stmts ++ [.commit])
      | .timeout =>
        (.error 504 "Query timeout, zoom in or try again", stmts ++ [.rollback])
      | .failure =>
        (.error 500 "Database query failed", stmts ++ [.rollback])

/-- A point geometry (longitude, latitude). -/
structure PointGeom where
  lng : ℚ
  lat : ℚ
deriving DecidableEq, Repr

/-- Whether a point lies in (the bbox `&&` sense of) an envelope. -/
def pointInEnvelope (g : PointGeom) (minX minY maxX maxY : ℚ) : Bool :=
  minX ≤ g.lng && g.lng ≤ maxX && minY ≤ g.lat && g.lat ≤ maxY

/-- A row of the `addresses` table. -/
structure AddressRow where
  address_point_id : ℤ
  address_number : Option String
  linear_name_full : Option String
  address_full : Option String
  geom : PointGeom
deriving DecidableEq, Repr

/-- An address feature of the GeoJSON responses. Branches of the source that
select only the id and geometry produce `none` for the other properties. -/
structure AddrFeature where
  address_point_id : ℤ
  civic_number : Option String
  street_name : Option String
  full_address : Option String
  geometry : PointGeom
deriving DecidableEq, Repr

/-- A GeoJSON FeatureCollection of address features. -/
structure AddrFC where
  features : List AddrFeature
deriving DecidableEq, Repr

/-- A row of the precomputed `address_parcels` table. -/
structure APRow where
  parcel_id : ℚ
  address_point_id : ℤ
  address_geom : PointGeom
deriving DecidableEq, Repr

/-- PostGIS `ST_Intersects` between an address point and a parcel polygon,
modelled at the bounding-box level like the `&&` operator. -/
def pointIntersectsParcel (a : PointGeom) (g : RawGeom) : Bool :=
  pointInEnvelope a g.minX g.minY g.maxX g.maxY

/-- Database oracle for the bbox/parcel address endpoint of `db/route.ts`
(the `app/api/addresses/route.ts` handler): the tables consulted, whether
the precomputed `address_parcels` table exists, and the fate of the data
query that the chosen branch runs. -/
structure AddressesDB where
  addresses : List AddressRow
  parcels : List Parcel
  addressParcels : List APRow
  addressParcelsExists : Bool
  outcome : QueryOutcome Unit
deriving DecidableEq, Repr

/-- Semantics of the precomputed-table SQL of the addresses endpoint:
`address_parcels` rows for the parcel, capped at 5000, id and geometry only. -/
def addressesPrecomputedRows (rows : List APRow) (pid : ℚ) : List AddrFeature :=
  ((rows.filter fun r => r.parcel_id = pid).take 5000).map
    fun r => ⟨r.address_point_id, none, none, none, r.address_geom⟩

/-- Semantics of the spatial-join SQL of the addresses endpoint: addresses
intersecting the parcel with the given objectid, capped at 5000, with the
civic number, street name and full address columns. -/
def addressesSpatialRows (addresses : List AddressRow) (parcels : List Parcel)
    (pid : ℚ) : List AddrFeature :=
  (((parcels.filter fun p => (p.objectid : ℚ) = pid).flatMap fun p =>
      addresses.filter fun a => pointIntersectsParcel a.geom p.geom).take 5000).map
    fun a => ⟨a.address_point_id, a.address_number, a.linear_name_full,
              a.address_full, a.geom⟩

/-- Semantics of the bbox-mode SQL of the addresses endpoint: addresses whose
geometry intersects the envelope, capped at 5000, id and geometry only. -/
def addressesBboxRows (addresses : List AddressRow) (minX minY maxX maxY : ℚ) :
    List AddrFeature :=
  ((addresses.filter fun a => pointInEnvelope a.geom minX minY maxX maxY).take 5000).map
    fun a => ⟨a.address_point_id, none, none, none, a.geom⟩

/-- The `GET` handler of `app/api/addresses/route.ts` (second document of
`src/app/api/db/route.ts`): `parcel_id` XOR `bbox`+`z` mode. In parcel mode
the data rows come from the oracle only through the tag of the query issued;
the claims settled here concern the guard and the bbox branches. -/
def addressesGET (db : AddressesDB) (parcelIdParam : Option JSNum)
    (bboxParam : Option (List JSNum)) (zParam : Option JSNum) :
    Response AddrFC × List Stmt :=
  let parcelId := parseParcelId parcelIdParam
  let bbox := parseBbox bboxParam
  let z := parseZoom zParam
  match parcelId, bbox with
  | none, none => (.error 400 "Either parcel_id or bbox is required", [])
  | _, _ =>
    let txn : List Stmt := [.begin, .setStatementTimeout 2500]
    match parcelId with
    | some pid =>
      let dataQuery : Stmt :=
        if db.addressParcelsExists then .query "addresses_precomputed" [.num pid]
        else .query "addresses_spatial_join" [.num pid]
      let rows :=
        if db.addressParcelsExists then addressesPrecomputedRows db.addressParcels pid
        else addressesSpatialRows db.addresses db.parcels pid
      let stmts := txn ++ [.tableCheck, dataQuery]
      match db.outcome with
      | .ok _ => (.ok ⟨rows⟩, stmts ++ [.commit])
      | .timeout => (.error 504 "Query timeout", stmts ++ [.rollback])
      | .failure => (.error 500 "Database query failed", stmts ++ [.rollback])
    | none =>
      match bbox with
      | some (minX, minY, maxX, maxY) =>
        if 12 ≤ z then
          let stmts := txn ++
            [.query "addresses_bbox" [.num minX, .num minY, .num maxX, .num maxY]]
          match db.outcome with
          | .ok _ =>
            (.ok ⟨addressesBboxRows db.addresses minX minY maxX maxY⟩,
             stmts ++ [.commit])
          | .timeout => (.error 504 "Query timeout", stmts ++ [.rollback])
          | .failure => (.error 500 "Database query failed", stmts ++ [.rollback])
        else
          (.ok ⟨[]⟩, txn ++ [.commit])
      | none => (.error 400 "Either parcel_id or bbox is required", [])

/-- JavaScript `row.address_full || (civic && street ? civic + " " + street : null)`
from `parcel/[parcelId]/addresses/route.ts`. Strings modelled as present or
absent (`NULL`). -/
def buildFullAddress (address_full civic street : Option String) : Option String :=
  match address_full with
  | some s => some s
  | none =>
    match civic, street with
    | some c, some s => some (c ++ " " ++ s)
    | _, _ => none

/-- Database oracle for `app/api/parcel/[parcelId]/addresses/route.ts`:
whether the precomputed `address_parcels` table exists, and the fates of the
enhanced query and of the reduced-column basic fallback query. Each outcome
carries the rows it would return as `(id, civic, street, full, geom)`. -/
structure ParcelAddrDB where
  tableExists : Bool
  enhanced : QueryOutcome (List AddressRow)
  basic : QueryOutcome (List AddressRow)
deriving DecidableEq, Repr

/-- Name of the enhanced query the handler tries first, per the
`address_parcels` table check. -/
def enhancedQueryName (db : ParcelAddrDB) : String :=
  if db.tableExists then "addr_enhanced_precomputed" else "addr_enhanced_spatial"

/-- Name of the reduced-column basic query used by the fallback. -/
def basicQueryName (db : ParcelAddrDB) : String :=
  if db.tableExists then "addr_basic_precomputed" else "addr_basic_spatial"

/-- Feature built from an enhanced-query row (all columns selected). -/
def enhancedFeature (r : AddressRow) : AddrFeature :=
  ⟨r.address_point_id, r.address_number, r.linear_name_full,
   buildFullAddress r.address_full r.address_number r.linear_name_full, r.geom⟩

/-- Feature built from a basic-query row: the basic query selects
`NULL as civic_number, NULL as street_name` and no `address_full`. -/
def basicFeature (r : AddressRow) : AddrFeature :=
  ⟨r.address_point_id, none, none, none, r.geom⟩

/-- The `GET` handler of `app/api/parcel/[parcelId]/addresses/route.ts`.
The parameter is the `Number` value of the path segment. On a failure of the
enhanced query (any error, timeouts included) the handler rolls back, opens a
fresh transaction with the same statement timeout, and retries once with the
basic query; a failure of the basic query reaches the outer catch. -/
def parcelAddressesGET (db : ParcelAddrDB) (parcelIdParam : JSNum) :
    Response AddrFC × List Stmt :=
  match parcelIdParam with
  | .num pid =>
    if pid ≤ 0 then (.error 400 "Invalid parcel ID", [])
    else
      let txn : List Stmt := [.begin, .setStatementTimeout 2500]
      let head := txn ++ [.tableCheck, .query (enhancedQueryName db) [.num pid]]
      match db.enhanced with
      | .ok rows => (.ok ⟨rows.map enhancedFeature⟩, head ++ [.commit])
      | _ =>
        let retry := head ++ [.rollback] ++ txn ++ [.query (basicQueryName db) [.num pid]]
        match db.basic with
        | .ok rows => (.ok ⟨rows.map basicFeature⟩, retry ++ [.commit])
        | .timeout => (.error 504 "Query timeout", retry ++ [.rollback])
        | .failure => (.error 500 "Database query failed", retry ++ [.rollback])
  | _ => (.error 400 "Invalid parcel ID", [])

/-- A row of the `/api/nearest-5-schools` response. -/
structure Nearest5Row where
  name : String
  geom_geojson : String
  source_address : String
  dist_m : ℚ
deriving DecidableEq, Repr

/-- Database oracle for `/api/nearest-5-schools`: the fate of its single
query (the 5 nearest schools by `<->` ordering). -/
structure Nearest5DB where
  outcome : QueryOutcome (List Nearest5Row)
deriving DecidableEq, Repr

/-- The `GET` handler of `app/api/nearest-5-schools/route.ts`. The `lat` and
`lng` arguments are the `parseFloat(searchParams.get(..) || "0")` values, so
a missing parameter arrives as `JSNum.num 0`. The guard is JavaScript
truthiness (`if (!lat || !lng)`); there is no transaction, no statement
timeout, and every query error — timeouts included — maps to a 500. -/
def nearest5SchoolsGET (db : Nearest5DB) (lat lng : JSNum) :
    Response (List Nearest5Row) × List Stmt :=
  if !lat.truthy || !lng.truthy then
    (.error 400 "lat and lng are required", [])
  else
    let stmts : List Stmt := [.query "nearest_5_schools" [lng, lat]]
    match db.outcome with
    | .ok rows => (.ok rows, stmts)
    | .timeout => (.error 500 "Database query failed", stmts)
    | .failure => (.error 500 "Database query failed", stmts)

/-- A school row of the `/api/libraries-and-schools-within-2km` response. -/
structure SchoolRow where
  name : String
  address_full : String
  geom_geojson : String
  dist_m : ℚ
deriving DecidableEq, Repr

/-- A library row of the `/api/libraries-and-schools-within-2km` response. -/
structure LibraryRow where
  branchname : String
  address : String
  geom_geojson : String
  dist_m : ℚ
deriving DecidableEq, Repr

/-- The body of a successful `/api/libraries-and-schools-within-2km` call. -/
structure LibSchoolBody where
  libraries : List LibraryRow
  schools : List SchoolRow
deriving DecidableEq, Repr

/-- Database oracle for `/api/libraries-and-schools-within-2km`: the fates of
its two sequential queries. -/
structure LibSchoolDB where
  librariesOutcome : QueryOutcome (List LibraryRow)
  schoolsOutcome : QueryOutcome (List SchoolRow)
deriving DecidableEq, Repr

/-- The `GET` handler of `app/api/libraries-and-schools-within-2km/route.ts`.
The two radius queries run sequentially on one connection inside one try
block: if the libraries query fails the schools query is never issued, and a
failure of either produces a single 500 for the whole request. There is no
transaction and no statement timeout. -/
def librariesSchoolsGET (db : LibSchoolDB) (lat lng : JSNum) :
    Response LibSchoolBody × List Stmt :=
  if !lat.truthy || !lng.truthy then
    (.error 400 "lat and lng are required", [])
  else
    let s1 : List Stmt := [.query "libraries_within_2km" [lng, lat]]
    match db.librariesOutcome with
    | .ok libs =>
      let s2 := s1 ++ [.query "schools_within_2km" [lng, lat]]
      match db.schoolsOutcome with
      | .ok schools => (.ok ⟨libs, schools⟩, s2)
      | .timeout => (.error 500 "Internal server error", s2)
      | .failure => (.error 500 "Internal server error", s2)
    | .timeout => (.error 500 "Internal server error", s1)
    | .failure => (.error 500 "Internal server error", s1)

/-- A row of the `/api/nearby` response. -/
structure NearbyRow where
  type : String
  name : String
  distance_m : ℚ
  geom_geojson : String
deriving DecidableEq, Repr

/-- Database oracle for `/api/nearby`. -/
structure NearbyDB where
  outcome : QueryOutcome (List NearbyRow)
deriving DecidableEq, Repr

/-- The `GET` handler of the nearby-POIs route (second document of
`src/app/api/snap-to-road/route.ts`): same truthiness guard on `lat`/`lng`,
single multi-kind query, no transaction, 500 on any failure. -/
def nearbyGET (db : NearbyDB) (lat lng radius : JSNum) :
    Response (List NearbyRow) × List Stmt :=
  if !lat.truthy || !lng.truthy then
    (.error 400 "lat and lng are required", [])
  else
    let stmts : List Stmt := [.query "nearby_pois" [lng, lat, radius]]
    match db.outcome with
    | .ok rows => (.ok rows, stmts)
    | .timeout => (.error 500 "Internal server error", stmts)
    | .failure => (.error 500 "Internal server error", stmts)

/-- A row of the `/api/snap-to-road` response. -/
structure SnapRow where
  ogc_fid : ℤ
  street : Option String
  dist_m : ℚ
  snap_geojson : String
  offset_line_geojson : String
deriving DecidableEq, Repr

/-- Database oracle for `/api/snap-to-road`. -/
structure SnapDB where
  outcome : QueryOutcome (List SnapRow)
deriving DecidableEq, Repr

/-- The `GET` handler of `app/api/snap-to-road/route.ts`: same truthiness
guard, single nearest-road query, no transaction, 500 on any failure. -/
def snapToRoadGET (db : SnapDB) (lat lng : JSNum) :
    Response (List SnapRow) × List Stmt :=
  if !lat.truthy || !lng.truthy then
    (.error 400 "lat and lng are required", [])
  else
    let stmts : List Stmt := [.query "snap_to_road" [lng, lat]]
    match db.outcome with
    | .ok rows => (.ok rows, stmts)
    | .timeout => (.error 500 "Internal server error", stmts)
    | .failure => (.error 500 "Internal server error", stmts)

/-- A row of the `/api/search` response. -/
structure SearchRow where
  id : ℤ
  label : String
  lon : ℚ
  lat : ℚ
deriving DecidableEq, Repr

/-- Database oracle for `/api/search`: the fate of its single LIKE query. -/
structure SearchDB where
  outcome : QueryOutcome (List SearchRow)
deriving DecidableEq, Repr

/-- JavaScript `String.prototype.trim`: strip whitespace from both ends of
the string. -/
def jsTrim (s : String) : String :=
  ⟨((s.data.dropWhile Char.isWhitespace).reverse.dropWhile
      Char.isWhitespace).reverse⟩

/-- From `search/route.ts` (`parseQuery`): the `q` parameter, `none` when
absent; accepted iff non-empty after trimming, and passed on trimmed. -/
def parseQuery : Option String → Option String
  | none => none
  | some s => if jsTrim s = "" then none else some (jsTrim s)

/-- From `search/route.ts` (`parseLimit`): the `limit` parameter through
`Number` (default "10"), clamped to [1, 100]; a non-finite value falls back
to 10. -/
def parseLimit : Option JSNum → ℚ
  | none => 10
  | some (.num v) => max 1 (min 100 v)
  | some _ => 10

/-- The `GET` handler of `app/api/search/route.ts`: 400 before any statement
when `q` is missing or blank, otherwise a transaction with a 3000 ms
statement timeout around the single LIKE query; pg error 57014 maps to a
504 with a retryable message, any other failure to a 500. -/
def searchGET (db : SearchDB) (qParam : Option String)
    (limitParam : Option JSNum) : Response (List SearchRow) × List Stmt :=
  match parseQuery qParam with
  | none => (.error 400 "q (query) parameter is required", [])
  | some q =>
    let stmts : List Stmt :=
      [.begin, .setStatementTimeout 3000, .searchQuery q (parseLimit limitParam)]
    match db.outcome with
    | .ok rows => (.ok rows, stmts ++ [.commit])
    | .timeout =>
      (.error 504 "Search timeout, try a more specific query",
       stmts ++ [.rollback])
    | .failure => (.error 500 "Search failed", stmts ++ [.rollback])

/-- Database oracle for `app/api/address/[addressId]/parcel/route.ts`
(`src/unnamed/part_003`): whether `address_parcels` exists and the fate of
the single lookup query, whose rows are the matching parcel ids (the SQL
carries `LIMIT 1`). -/
structure AddressParcelDB where
  tableExists : Bool
  outcome : QueryOutcome (List ℚ)
deriving DecidableEq, Repr

/-- The `GET` handler of the address→parcel route (`src/unnamed/part_003`):
400 for a non-finite or non-positive id before any statement, a transaction
with a 2500 ms statement timeout around the table check and one lookup
(precomputed table or spatial join), 404 after COMMIT when no row matches,
504 on pg 57014 and 500 on any other error. -/
def addressParcelGET (db : AddressParcelDB) (addressIdParam : JSNum) :
    Response ℚ × List Stmt :=
  match addressIdParam with
  | .num aid =>
    if aid ≤ 0 then (.error 400 "Invalid address ID", [])
    else
      let dataQuery : Stmt :=
        if db.tableExists then .query "parcel_by_address_precomputed" [.num aid]
        else .query "parcel_by_address_spatial" [.num aid]
      let stmts := [Stmt.begin, .setStatementTimeout 2500, .tableCheck, dataQuery]
      match db.outcome with
      | .ok rows =>
        match rows with
        | [] => (.error 404 "No parcel found for this address", stmts ++ [.commit])
        | pid :: _ => (.ok pid, stmts ++ [.commit])
      | .timeout => (.error 504 "Query timeout", stmts ++ [.rollback])
      | .failure => (.error 500 "Database query failed", stmts ++ [.rollback])
  | _ => (.error 400 "Invalid address ID", [])

/-- The schools/libraries panel state of `AddressTable.tsx`: the two data
lists and the two per-category error strings. -/
structure PanelState where
  schools : List SchoolRow
  schoolsError : Option String
  libraries : List LibraryRow
  librariesError : Option String
deriving DecidableEq, Repr

/-- The effect `fetchSchoolsAndLibraries` of `AddressTable.tsx` applied to
the response of the single combined fetch: on a non-ok response the catch
block sets the same error message for both categories and clears both lists;
on success both lists are set and both errors cleared. -/
def applyCombinedFetch (resp : Response LibSchoolBody) : PanelState :=
  match resp with
  | .ok body => ⟨body.schools, none, body.libraries, none⟩
  | .error _ _ =>
    ⟨[], some "Failed to load schools and libraries",
     [], some "Failed to load schools and libraries"⟩

/-- A map viewport as read by `bboxFromMap`/`map.getZoom()` in `page.tsx`. -/
structure Viewport where
  zoom : ℚ
  west : ℚ
  south : ℚ
  east : ℚ
  north : ℚ
deriving DecidableEq, Repr

/-- State of the debounced parcel-loading machinery of `page.tsx`:
`curCtrl`/`nextCtrl` model `abortControllerRef` (controllers are numbered in
creation order), `aborted` the set of controllers whose `abort()` was called,
`timerArmed` the pending `setTimeout`, `inflight` the fetches whose responses
have not yet been processed, and `parcelsLayer` the data of the `parcels`
GeoJSON source, identified by the viewport it was fetched for (`none` is the
empty FeatureCollection). -/
structure ClientState where
  mapViewport : Option Viewport
  curCtrl : Option ℕ
  nextCtrl : ℕ
  aborted : List ℕ
  timerArmed : Bool
  inflight : List (ℕ × Viewport)
  parcelsLayer : Option Viewport
deriving DecidableEq, Repr

/-- The initial client state: no controller, no timer, empty parcel source. -/
def initClient : ClientState := ⟨none, none, 0, [], false, [], none⟩

/-- Events of the debounce/cancel protocol: a `moveend` at a new viewport, the
expiry of the 500 ms debounce timer, and the arrival of the network response
of the fetch issued with a given controller. -/
inductive ClientEv where
  | moveend (v : Viewport)
  | debounceFire
  | response (ctrl : ℕ) (v : Viewport)
deriving DecidableEq, Repr

/-- One step of the client protocol, from `page.tsx`:
`moveend` runs `debouncedLoadParcels` (abort the current controller, clear
the pending timer, create a fresh controller, arm the timer); `debounceFire`
runs `loadParcels` with the current controller (below `MIN_Z = 10` it clears
the source and fetches nothing, otherwise it issues the fetch); `response`
delivers a fetch result — if the fetch's controller was aborted the rejection
takes the `AbortError` branch and the source is untouched, otherwise
`src.setData(fc)` replaces the layer with that response's data. -/
def stepClient (s : ClientState) : ClientEv → ClientState
  | .moveend v =>
    { s with
      mapViewport := some v
      aborted := match s.curCtrl with
        | some c => c :: s.aborted
        | none => s.aborted
      curCtrl := some s.nextCtrl
      nextCtrl := s.nextCtrl + 1
      timerArmed := true }
  | .debounceFire =>
    if s.timerArmed then
      match s.mapViewport, s.curCtrl with
      | some v, some c =>
        if v.zoom < 10 then
          { s with timerArmed := false, parcelsLayer := none }
        else
          { s with timerArmed := false, inflight := (c, v) :: s.inflight }
      | _, _ => { s with timerArmed := false }
    else s
  | .response c v =>
    if (c, v) ∈ s.inflight then
      { s with
        inflight := s.inflight.filter fun p => p ≠ (c, v)
        parcelsLayer := if c ∈ s.aborted then s.parcelsLayer else some v }
    else s

/-- Run the client protocol over a list of events. -/
def runClient (s : ClientState) (evs : List ClientEv) : ClientState :=
  evs.foldl stepClient s

/-- The page-level UI state of `page.tsx`: the module-level `selectedId`, the
`addresses` GeoJSON source, the React states `selectedParcelId` and
`selectedAddress`, the `schools`/`libraries` overlay sources, and the 2 km
`buffer` overlay (identified by the click point it was built around). -/
structure UIState where
  selectedId : Option ℤ
  addressesSource : List AddrFeature
  selectedParcelId : Option ℤ
  selectedAddress : Option AddrFeature
  schoolsSource : List SchoolRow
  librariesSource : List LibraryRow
  bufferSource : Option PointGeom
deriving DecidableEq, Repr

/-- The empty initial UI state. -/
def initUI : UIState := ⟨none, [], none, none, [], [], none⟩

/-- The parcel-layer click handler of `setupInteractions` in `page.tsx`.
`addrFor` is the (settled) result of `loadAddressesForParcel`'s fetch for a
parcel id. Clicking the already-selected parcel clears the selection, the
addresses source and the buffer overlay; clicking another parcel selects it,
loads its addresses and rebuilds the buffer around the click point. -/
def clickParcel (addrFor : ℤ → List AddrFeature) (clickPt : PointGeom)
    (s : UIState) (pid : ℤ) : UIState :=
  if s.selectedId = some pid then
    { s with
      selectedId := none
      addressesSource := []
      selectedParcelId := none
      bufferSource := none }
  else
    { s with
      selectedId := some pid
      addressesSource := addrFor pid
      selectedParcelId := some pid
      bufferSource := some clickPt }

/-- The `select-address` event handler of `page.tsx` (`setSelectedAddress`). -/
def selectAddress (s : UIState) (a : AddrFeature) : UIState :=
  { s with selectedAddress := some a }

/-- The source's `loadSchoolsonMap` applied via `onSchoolsChange` after the combined fetch
settles: the schools overlay source is replaced. -/
def schoolsLoaded (s : UIState) (rows : List SchoolRow) : UIState :=
  { s with schoolsSource := rows }

/-- The source's `loadLibrariesOnMap` applied via `onLibrariesChange` after the combined
fetch settles: the libraries overlay source is replaced. -/
def librariesLoaded (s : UIState) (rows : List LibraryRow) : UIState :=
  { s with librariesSource := rows }

/-- The function `clearParcelSelection` of `page.tsx` (also the `close-table` handler):
the full clear of selection, addresses, selected address, both overlays and
the buffer. -/
def clearParcelSelection (s : UIState) : UIState :=
  { s with
    selectedId := none
    addressesSource := []
    selectedParcelId := none
    selectedAddress := none
    schoolsSource := []
    librariesSource := []
    bufferSource := none }

/-- Descending-area comparison on returned parcel features (the area of the
pre-simplification source geometry). -/
def featAreaDesc (f g : ParcelFeature) : Prop :=
  g.geometry.source.area ≤ f.geometry.source.area

/-- Number of statements in a log that are data queries with a given name. -/
def countQueriesNamed (name : String) (log : List Stmt) : ℕ :=
  (log.filter fun s =>
    match s with
    | .query n _ => n == name
    | _ => false).length

/-- A valid Toronto-area bbox parameter, split and parsed:
`bbox=-79.4,43.6,-79.3,43.7`. -/
def sampleBboxParam : Option (List JSNum) :=
  some [.num (-80), .num 43, .num (-79), .num 44]

/-- A sample parcel geometry inside the sample bbox, area 9. -/
def geomA : RawGeom := ⟨-80, 43, -79, 44, 9, 0⟩

/-- A sample parcel geometry inside the sample bbox, area 25. -/
def geomB : RawGeom := ⟨-80, 43, -79, 44, 25, 1⟩

/-- A sample parcel geometry outside the sample bbox. -/
def geomC : RawGeom := ⟨-70, 50, -69, 51, 4, 2⟩

/-- A sample parcels database with two parcels in the bbox and one outside. -/
def sampleParcelsDB : ParcelsDB :=
  ⟨[⟨7, some "residential", geomA⟩, ⟨8, none, geomB⟩, ⟨9, some "park", geomC⟩],
   .ok ()⟩

/-- A sample address feature used by the selection-model scenarios. -/
def addrSample : AddrFeature :=
  ⟨101, some "12", some "Main St", some "12 Main St", ⟨-79, 43⟩⟩

/-- A sample school row. -/
def schoolSample : SchoolRow := ⟨"Alpha PS", "1 School Rd", "geojson-point-a", 500⟩

/-- A sample library row. -/
def librarySample : LibraryRow := ⟨"Central", "2 Library Ave", "geojson-point-b", 300⟩

/-- A sample address loader answering every parcel with one address. -/
def addrForSample : ℤ → List AddrFeature := fun _ => [addrSample]

/-- A sample click point. -/
def clickPtSample : PointGeom := ⟨-79, 43⟩

/-- The UI state reached by: click parcel 7, choose an address in it, then
let the schools and libraries overlays load. -/
def c6State : UIState :=
  librariesLoaded
    (schoolsLoaded
      (selectAddress (clickParcel addrForSample clickPtSample initUI 7) addrSample)
      [schoolSample])
    [librarySample]

/-- A sample viewport above the minimum zoom (zoom 12). -/
def vpA : Viewport := ⟨12, -80, 43, -79, 44⟩

/-- A second sample viewport above the minimum zoom (zoom 15). -/
def vpB : Viewport := ⟨15, -80, 43, -79, 44⟩

/-- C5: for every zoom in [0, 22] the simplification tolerance is a
non-increasing step function of zoom taking exactly the five tier values
0.0003, 0.0001, 0.00005, 0.00002, 0.000005 degrees, and at each breakpoint
z = 9, 11, 13, 15 the finer (higher-zoom) tier is selected. -/
theorem C5_tolerance_tiers (z1 z2 : ℚ) (h1 : 0 ≤ z1) (h2 : z1 ≤ z2)
    (h3 : z2 ≤ 22) :
    toleranceForZoom z2 ≤ toleranceForZoom z1 ∧
    (toleranceForZoom z1 = 0.0003 ∨ toleranceForZoom z1 = 0.0001 ∨
     toleranceForZoom z1 = 0.00005 ∨ toleranceForZoom z1 = 0.00002 ∨
     toleranceForZoom z1 = 0.000005) ∧
    toleranceForZoom 9 = 0.0001 ∧ toleranceForZoom 11 = 0.00005 ∧
    toleranceForZoom 13 = 0.00002 ∧ toleranceForZoom 15 = 0.000005 ∧
    toleranceForZoom 8 = 0.0003 ∧ toleranceForZoom 10 = 0.0001 ∧
    toleranceForZoom 12 = 0.00005 ∧ toleranceForZoom 14 = 0.00002 ∧
    toleranceForZoom 16 = 0.000005 := by
  refine ⟨?_, ?_, ?_, ?_, ?_, ?_, ?_, ?_, ?_, ?_, ?_⟩
  · unfold toleranceForZoom
    split_ifs <;> linarith
  · unfold toleranceForZoom
    split_ifs <;> simp
  all_goals norm_num [toleranceForZoom]

/-- Witness for `C5_tolerance_tiers` at z1 = 10, z2 = 14. -/
theorem C5_tolerance_tiers_witness :
    ((0 : ℚ) ≤ 10 ∧ (10 : ℚ) ≤ 14 ∧ (14 : ℚ) ≤ 22) ∧
    (toleranceForZoom 14 ≤ toleranceForZoom 10 ∧
     (toleranceForZoom 10 = 0.0003 ∨ toleranceForZoom 10 = 0.0001 ∨
      toleranceForZoom 10 = 0.00005 ∨ toleranceForZoom 10 = 0.00002 ∨
      toleranceForZoom 10 = 0.000005) ∧
     toleranceForZoom 9 = 0.0001 ∧ toleranceForZoom 11 = 0.00005 ∧
     toleranceForZoom 13 = 0.00002 ∧ toleranceForZoom 15 = 0.000005 ∧
     toleranceForZoom 8 = 0.0003 ∧ toleranceForZoom 10 = 0.0001 ∧
     toleranceForZoom 12 = 0.00005 ∧ toleranceForZoom 14 = 0.00002 ∧
     toleranceForZoom 16 = 0.000005) :=
  ⟨by norm_num,
   C5_tolerance_tiers 10 14 (by norm_num) (by norm_num) (by norm_num)⟩

/-- C10: on all four point-based proximity endpoints, a `lat` or `lng` that
parses to exactly 0 — a valid finite coordinate — is rejected with HTTP 400
and no query is issued, because the guard tests the parsed number's
truthiness. -/
theorem C10_zero_coordinate_rejected (lat lng radius : JSNum)
    (db1 : Nearest5DB) (db2 : LibSchoolDB) (db3 : NearbyDB) (db4 : SnapDB) :
    nearest5SchoolsGET db1 (.num 0) lng
      = (.error 400 "lat and lng are required", []) ∧
    nearest5SchoolsGET db1 lat (.num 0)
      = (.error 400 "lat and lng are required", []) ∧
    librariesSchoolsGET db2 (.num 0) lng
      = (.error 400 "lat and lng are required", []) ∧
    librariesSchoolsGET db2 lat (.num 0)
      = (.error 400 "lat and lng are required", []) ∧
    nearbyGET db3 (.num 0) lng radius
      = (.error 400 "lat and lng are required", []) ∧
    nearbyGET db3 lat (.num 0) radius
      = (.error 400 "lat and lng are required", []) ∧
    snapToRoadGET db4 (.num 0) lng
      = (.error 400 "lat and lng are required", []) ∧
    snapToRoadGET db4 lat (.num 0)
      = (.error 400 "lat and lng are required", []) := by
  refine ⟨?_, ?_, ?_, ?_, ?_, ?_, ?_, ?_⟩ <;>
    simp [nearest5SchoolsGET, librariesSchoolsGET, nearbyGET, snapToRoadGET,
      JSNum.truthy]

/-- C1 counterexample: at zoom 9 (< 10) with a valid bbox, the parcels
endpoint does not return an empty FeatureCollection — it responds HTTP 400
with the error "Zoom in to load parcels" (and issues no statement). -/
theorem C1_counterexample :
    (parcelsGET ⟨[], .ok ()⟩ sampleBboxParam (some (.num 9))).1
      = .error 400 "Zoom in to load parcels" ∧
    (parcelsGET ⟨[], .ok ()⟩ sampleBboxParam (some (.num 9))).1
      ≠ Response.ok ⟨[]⟩ ∧
    (parcelsGET ⟨[], .ok ()⟩ sampleBboxParam (some (.num 9))).2 = [] := by
  refine ⟨by decide, by decide, by decide⟩

/-- C1 amended: for zoom below 10 `queryParcels` rejects with HTTP 400
"Zoom in to load parcels" and issues no statement; bbox-mode
`queryAddresses` returns an empty FeatureCollection without running its data
query whenever the zoom is below 12 (its guard threshold is 12, not 10),
though it still opens and commits a transaction on the connection. -/
theorem C1_amended (db : ParcelsDB) (bboxParam : Option (List JSNum))
    (zParam : Option JSNum) (minX minY maxX maxY : ℚ)
    (hbb : parseBbox bboxParam = some (minX, minY, maxX, maxY))
    (hz : parseZoom zParam < 10)
    (adb : AddressesDB) (bboxParam2 : Option (List JSNum))
    (zParam2 : Option JSNum) (m2X m2Y x2X x2Y : ℚ)
    (hbb2 : parseBbox bboxParam2 = some (m2X, m2Y, x2X, x2Y))
    (hz2 : parseZoom zParam2 < 12) :
    parcelsGET db bboxParam zParam = (.error 400 "Zoom in to load parcels", []) ∧
    addressesGET adb none bboxParam2 zParam2
      = (.ok ⟨[]⟩, [.begin, .setStatementTimeout 2500, .commit]) := by
  constructor
  · simp only [parcelsGET, hbb]
    rw [if_pos hz]
  · simp only [addressesGET, parseParcelId, hbb2]
    rw [if_neg (not_le.mpr hz2)]
    rfl

/-- Witness for `C1_amended` with zoom 9 for the parcels endpoint and zoom 11
for the bbox-mode addresses endpoint. -/
theorem C1_amended_witness :
    (parseBbox sampleBboxParam = some (-80, 43, -79, 44) ∧
     parseZoom (some (.num 9)) < 10 ∧
     parseZoom (some (.num 11)) < 12) ∧
    (parcelsGET ⟨[], .ok ()⟩ sampleBboxParam (some (.num 9))
       = (.error 400 "Zoom in to load parcels", []) ∧
     addressesGET ⟨[], [], [], false, .ok ()⟩ none sampleBboxParam (some (.num 11))
       = (.ok ⟨[]⟩, [.begin, .setStatementTimeout 2500, .commit])) :=
  ⟨⟨by decide, by decide, by decide⟩,
   C1_amended ⟨[], .ok ()⟩ sampleBboxParam (some (.num 9)) (-80) 43 (-79) 44
     (by decide) (by decide)
     ⟨[], [], [], false, .ok ()⟩ sampleBboxParam (some (.num 11))
     (-80) 43 (-79) 44 (by decide) (by decide)⟩

/-- C7 counterexample: `lat=Infinity` passes the truthiness guard of
the nearest-5-schools endpoint, so the query is executed with a non-finite
coordinate and no 400 is returned — the claim that non-finite coordinates
are always rejected before any query is false. -/
theorem C7_counterexample :
    (nearest5SchoolsGET ⟨.ok []⟩ .posInf (.num (-79))).1 = Response.ok [] ∧
    (nearest5SchoolsGET ⟨.ok []⟩ .posInf (.num (-79))).2
      = [.query "nearest_5_schools" [.num (-79), .posInf]] ∧
    JSNum.posInf.isFinite = false := by
  refine ⟨by decide, by decide, by decide⟩

/-- C7 amended: the bbox endpoints validate all four coordinates with
`Number.isFinite` and reject a bbox containing any non-finite entry with
HTTP 400 before any statement is issued; the lat/lng endpoints reject falsy
parsed values (missing → 0, `NaN`, and the coordinate 0) with HTTP 400 and
no query, but their truthiness guard accepts `Infinity`/`-Infinity` and the
query is then issued with the non-finite value among its parameters. -/
theorem C7_amended (lat lng radius : JSNum) (db : Nearest5DB)
    (lst : List JSNum) (x : JSNum) (hx : x ∈ lst) (hfin : x.isFinite = false)
    (pdb : ParcelsDB) (zParam : Option JSNum)
    (adb : AddressesDB) (zParam2 : Option JSNum)
    (ls : LibSchoolDB) (nb : NearbyDB) (sn : SnapDB) :
    (lat.truthy = false →
      nearest5SchoolsGET db lat lng
        = (.error 400 "lat and lng are required", []) ∧
      librariesSchoolsGET ls lat lng
        = (.error 400 "lat and lng are required", []) ∧
      nearbyGET nb lat lng radius
        = (.error 400 "lat and lng are required", []) ∧
      snapToRoadGET sn lat lng
        = (.error 400 "lat and lng are required", [])) ∧
    (lng.truthy = false →
      nearest5SchoolsGET db lat lng
        = (.error 400 "lat and lng are required", []) ∧
      librariesSchoolsGET ls lat lng
        = (.error 400 "lat and lng are required", []) ∧
      nearbyGET nb lat lng radius
        = (.error 400 "lat and lng are required", []) ∧
      snapToRoadGET sn lat lng
        = (.error 400 "lat and lng are required", [])) ∧
    (JSNum.nan.truthy = false ∧ (JSNum.num 0).truthy = false ∧
     JSNum.posInf.truthy = true ∧ JSNum.negInf.truthy = true) ∧
    parseBbox (some lst) = none ∧
    parcelsGET pdb (some lst) zParam
      = (.error 400 "bbox=minX,minY,maxX,maxY required", []) ∧
    addressesGET adb none (some lst) zParam2
      = (.error 400 "Either parcel_id or bbox is required", []) ∧
    (lat.truthy = true → lng.truthy = true →
      (nearest5SchoolsGET db lat lng).2
        = [.query "nearest_5_schools" [lng, lat]] ∧
      (librariesSchoolsGET ls lat lng).2.head?
        = some (.query "libraries_within_2km" [lng, lat]) ∧
      (nearbyGET nb lat lng radius).2
        = [.query "nearby_pois" [lng, lat, radius]] ∧
      (snapToRoadGET sn lat lng).2
        = [.query "snap_to_road" [lng, lat]]) := by
  have hnone : parseBbox (some lst) = none := by
    simp only [parseBbox]
    rw [if_neg]
    rintro ⟨-, hall⟩
    have := List.all_eq_true.mp hall x hx
    rw [hfin] at this
    exact Bool.false_ne_true this
  refine ⟨?_, ?_, ⟨by decide, by decide, by decide, by decide⟩, hnone, ?_, ?_, ?_⟩
  · intro h
    exact ⟨by simp [nearest5SchoolsGET, h],
           by simp [librariesSchoolsGET, h],
           by simp [nearbyGET, h],
           by simp [snapToRoadGET, h]⟩
  · intro h
    exact ⟨by simp [nearest5SchoolsGET, h],
           by simp [librariesSchoolsGET, h],
           by simp [nearbyGET, h],
           by simp [snapToRoadGET, h]⟩
  · simp [parcelsGET, hnone]
  · simp [addressesGET, parseParcelId, hnone]
  · intro h1 h2
    refine ⟨?_, ?_, ?_, ?_⟩
    · rcases db with ⟨out⟩
      cases out <;> simp [nearest5SchoolsGET, h1, h2]
    · rcases ls with ⟨lo, so⟩
      cases lo <;> cases so <;> simp [librariesSchoolsGET, h1, h2]
    · rcases nb with ⟨out⟩
      cases out <;> simp [nearbyGET, h1, h2]
    · rcases sn with ⟨out⟩
      cases out <;> simp [snapToRoadGET, h1, h2]

/-- Witness for `C7_amended` with a bbox list containing `NaN` and finite
lat/lng on the point endpoints. -/
theorem C7_amended_witness :
    (JSNum.nan ∈ [JSNum.num (-80), JSNum.nan, JSNum.num (-79), JSNum.num 44] ∧
     JSNum.nan.isFinite = false) ∧
    (((JSNum.num 43).truthy = false →
      nearest5SchoolsGET ⟨.ok []⟩ (.num 43) (.num (-79))
        = (.error 400 "lat and lng are required", []) ∧
      librariesSchoolsGET ⟨.ok [], .ok []⟩ (.num 43) (.num (-79))
        = (.error 400 "lat and lng are required", []) ∧
      nearbyGET ⟨.ok []⟩ (.num 43) (.num (-79)) (.num 2000)
        = (.error 400 "lat and lng are required", []) ∧
      snapToRoadGET ⟨.ok []⟩ (.num 43) (.num (-79))
        = (.error 400 "lat and lng are required", [])) ∧
     ((JSNum.num (-79)).truthy = false →
      nearest5SchoolsGET ⟨.ok []⟩ (.num 43) (.num (-79))
        = (.error 400 "lat and lng are required", []) ∧
      librariesSchoolsGET ⟨.ok [], .ok []⟩ (.num 43) (.num (-79))
        = (.error 400 "lat and lng are required", []) ∧
      nearbyGET ⟨.ok []⟩ (.num 43) (.num (-79)) (.num 2000)
        = (.error 400 "lat and lng are required", []) ∧
      snapToRoadGET ⟨.ok []⟩ (.num 43) (.num (-79))
        = (.error 400 "lat and lng are required", [])) ∧
     (JSNum.nan.truthy = false ∧ (JSNum.num 0).truthy = false ∧
      JSNum.posInf.truthy = true ∧ JSNum.negInf.truthy = true) ∧
     parseBbox (some [JSNum.num (-80), JSNum.nan, JSNum.num (-79), JSNum.num 44])
       = none ∧
     parcelsGET ⟨[], .ok ()⟩
       (some [JSNum.num (-80), JSNum.nan, JSNum.num (-79), JSNum.num 44])
       (some (.num 15))
       = (.error 400 "bbox=minX,minY,maxX,maxY required", []) ∧
     addressesGET ⟨[], [], [], false, .ok ()⟩ none
       (some [JSNum.num (-80), JSNum.nan, JSNum.num (-79), JSNum.num 44])
       (some (.num 12))
       = (.error 400 "Either parcel_id or bbox is required", []) ∧
     ((JSNum.num 43).truthy = true → (JSNum.num (-79)).truthy = true →
      (nearest5SchoolsGET ⟨.ok []⟩ (.num 43) (.num (-79))).2
        = [.query "nearest_5_schools" [.num (-79), .num 43]] ∧
      (librariesSchoolsGET ⟨.ok [], .ok []⟩ (.num 43) (.num (-79))).2.head?
        = some (.query "libraries_within_2km" [.num (-79), .num 43]) ∧
      (nearbyGET ⟨.ok []⟩ (.num 43) (.num (-79)) (.num 2000)).2
        = [.query "nearby_pois" [.num (-79), .num 43, .num 2000]] ∧
      (snapToRoadGET ⟨.ok []⟩ (.num 43) (.num (-79))).2
        = [.query "snap_to_road" [.num (-79), .num 43]])) :=
  ⟨⟨by decide, by decide⟩,
   C7_amended (.num 43) (.num (-79)) (.num 2000) ⟨.ok []⟩
     [JSNum.num (-80), JSNum.nan, JSNum.num (-79), JSNum.num 44]
     JSNum.nan (by decide) (by decide) ⟨[], .ok ()⟩ (some (.num 15))
     ⟨[], [], [], false, .ok ()⟩ (some (.num 12))
     ⟨.ok [], .ok []⟩ ⟨.ok []⟩ ⟨.ok []⟩⟩

/-- C2 counterexample: for an address whose libraries query succeeds with a
non-empty result while the schools query fails, the combined endpoint
answers a single 500 and the client's catch block blanks the libraries
panel and reports the same error for both categories — the successful
branch is not displayed and the error is not scoped to the failed one. -/
theorem C2_counterexample :
    (librariesSchoolsGET ⟨.ok [librarySample], .failure⟩ (.num 43) (.num (-79))).1
      = .error 500 "Internal server error" ∧
    applyCombinedFetch
      (librariesSchoolsGET ⟨.ok [librarySample], .failure⟩ (.num 43) (.num (-79))).1
      = ⟨[], some "Failed to load schools and libraries",
         [], some "Failed to load schools and libraries"⟩ ∧
    (applyCombinedFetch
      (librariesSchoolsGET ⟨.ok [librarySample], .failure⟩ (.num 43) (.num (-79))).1).libraries
      = [] ∧
    (applyCombinedFetch
      (librariesSchoolsGET ⟨.ok [librarySample], .failure⟩ (.num 43) (.num (-79))).1).librariesError
      ≠ none ∧
    [librarySample] ≠ ([] : List LibraryRow) := by
  refine ⟨by decide, by decide, by decide, by decide, by decide⟩

/-- C2 amended: the schools and libraries queries for a selected address are
issued through one combined request and run sequentially on one connection;
when both succeed the client shows both lists with no errors, but a failure
of either query (timeout or error) fails the whole request with a single
500, after which the client clears both panels and reports the same error
message for both categories — partial results are never returned. -/
theorem C2_amended (db : LibSchoolDB) (lat lng : JSNum)
    (hlat : lat.truthy = true) (hlng : lng.truthy = true) :
    (∀ libs schools, db.librariesOutcome = .ok libs →
      db.schoolsOutcome = .ok schools →
      applyCombinedFetch (librariesSchoolsGET db lat lng).1
        = ⟨schools, none, libs, none⟩) ∧
    ((db.librariesOutcome.isOk = false ∨ db.schoolsOutcome.isOk = false) →
      (librariesSchoolsGET db lat lng).1 = .error 500 "Internal server error" ∧
      applyCombinedFetch (librariesSchoolsGET db lat lng).1
        = ⟨[], some "Failed to load schools and libraries",
           [], some "Failed to load schools and libraries"⟩) := by
  rcases db with ⟨lo, so⟩
  constructor
  · rintro libs schools rfl rfl
    simp [librariesSchoolsGET, applyCombinedFetch, hlat, hlng]
  · intro h
    cases lo <;> cases so <;>
      simp_all [librariesSchoolsGET, applyCombinedFetch, QueryOutcome.isOk,
        hlat, hlng]

/-- Witness for `C2_amended`: schools query fails, libraries query succeeds. -/
theorem C2_amended_witness :
    ((JSNum.num 43).truthy = true ∧ (JSNum.num (-79)).truthy = true) ∧
    ((∀ libs schools,
        (⟨.ok [librarySample], .failure⟩ : LibSchoolDB).librariesOutcome = .ok libs →
        (⟨.ok [librarySample], .failure⟩ : LibSchoolDB).schoolsOutcome = .ok schools →
        applyCombinedFetch
          (librariesSchoolsGET ⟨.ok [librarySample], .failure⟩ (.num 43) (.num (-79))).1
          = ⟨schools, none, libs, none⟩) ∧
     (((⟨.ok [librarySample], .failure⟩ : LibSchoolDB).librariesOutcome.isOk = false ∨
       (⟨.ok [librarySample], .failure⟩ : LibSchoolDB).schoolsOutcome.isOk = false) →
      (librariesSchoolsGET ⟨.ok [librarySample], .failure⟩ (.num 43) (.num (-79))).1
        = .error 500 "Internal server error" ∧
      applyCombinedFetch
        (librariesSchoolsGET ⟨.ok [librarySample], .failure⟩ (.num 43) (.num (-79))).1
        = ⟨[], some "Failed to load schools and libraries",
           [], some "Failed to load schools and libraries"⟩)) :=
  ⟨⟨by decide, by decide⟩,
   C2_amended ⟨.ok [librarySample], .failure⟩ (.num 43) (.num (-79))
     (by decide) (by decide)⟩

/-- C4 counterexample: the nearest-5-schools endpoint runs its query with no
transaction and no statement timeout, and a backend timeout is reported as a
generic 500 "Database query failed", not as a distinct 504. -/
theorem C4_counterexample :
    nearest5SchoolsGET ⟨.timeout⟩ (.num 43) (.num (-79))
      = (.error 500 "Database query failed",
         [.query "nearest_5_schools" [.num (-79), .num 43]]) ∧
    Stmt.begin ∉ (nearest5SchoolsGET ⟨.timeout⟩ (.num 43) (.num (-79))).2 ∧
    Stmt.setStatementTimeout 2500 ∉
      (nearest5SchoolsGET ⟨.timeout⟩ (.num 43) (.num (-79))).2 := by
  refine ⟨by decide, by decide, by decide⟩

/-- C4 amended: the parcels, addresses, parcel-addresses, address-parcel and
search endpoints run their queries inside a transaction with a fixed
statement timeout (2500 ms, 3000 ms for search) and answer a backend timeout
(pg code 57014) with 504, distinct from the 500 of other failures; the
nearest-5-schools, libraries-and-schools-within-2km, nearby and snap-to-road
endpoints issue their queries with no transaction and no statement timeout
and answer every query failure, backend timeouts included, with a generic
500. -/
theorem C4_amended (pdb : ParcelsDB) (bboxParam : Option (List JSNum))
    (zParam : Option JSNum) (minX minY maxX maxY : ℚ)
    (hbb : parseBbox bboxParam = some (minX, minY, maxX, maxY))
    (hz : 10 ≤ parseZoom zParam)
    (adb : AddressesDB) (zParam2 : Option JSNum)
    (padb : ParcelAddrDB) (apdb : AddressParcelDB) (pid : ℚ) (hpid : 0 < pid)
    (sdb : SearchDB) (qParam : Option String) (limitParam : Option JSNum)
    (q : String) (hq : parseQuery qParam = some q)
    (n5 : Nearest5DB) (ls : LibSchoolDB) (nb : NearbyDB) (sn : SnapDB)
    (lat lng radius : JSNum)
    (hlat : lat.truthy = true) (hlng : lng.truthy = true) :
    (pdb.outcome = .timeout →
      parcelsGET pdb bboxParam zParam
        = (.error 504 "Query timeout, zoom in or try again",
           [.begin, .setStatementTimeout 2500,
            .query "parcels_bbox"
              [.num minX, .num minY, .num maxX, .num maxY,
               .num (toleranceForZoom (parseZoom zParam))],
            .rollback])) ∧
    (pdb.outcome = .failure →
      (parcelsGET pdb bboxParam zParam).1 = .error 500 "Database query failed") ∧
    (adb.outcome = .timeout →
      addressesGET adb (some (.num pid)) none zParam2
        = (.error 504 "Query timeout",
           [.begin, .setStatementTimeout 2500, .tableCheck,
            (if adb.addressParcelsExists then
               Stmt.query "addresses_precomputed" [.num pid]
             else Stmt.query "addresses_spatial_join" [.num pid]),
            .rollback])) ∧
    (adb.outcome = .failure →
      (addressesGET adb (some (.num pid)) none zParam2).1
        = .error 500 "Database query failed") ∧
    (padb.enhanced = .timeout → padb.basic = .timeout →
      (parcelAddressesGET padb (.num pid)).1 = .error 504 "Query timeout") ∧
    (padb.enhanced = .timeout → padb.basic = .failure →
      (parcelAddressesGET padb (.num pid)).1
        = .error 500 "Database query failed") ∧
    (apdb.outcome = .timeout →
      addressParcelGET apdb (.num pid)
        = (.error 504 "Query timeout",
           [.begin, .setStatementTimeout 2500, .tableCheck,
            (if apdb.tableExists then
               Stmt.query "parcel_by_address_precomputed" [.num pid]
             else Stmt.query "parcel_by_address_spatial" [.num pid]),
            .rollback])) ∧
    (apdb.outcome = .failure →
      (addressParcelGET apdb (.num pid)).1 = .error 500 "Database query failed") ∧
    (sdb.outcome = .timeout →
      searchGET sdb qParam limitParam
        = (.error 504 "Search timeout, try a more specific query",
           [.begin, .setStatementTimeout 3000,
            .searchQuery q (parseLimit limitParam), .rollback])) ∧
    (sdb.outcome = .failure →
      (searchGET sdb qParam limitParam).1 = .error 500 "Search failed") ∧
    (n5.outcome = .timeout →
      nearest5SchoolsGET n5 lat lng
        = (.error 500 "Database query failed",
           [.query "nearest_5_schools" [lng, lat]])) ∧
    (ls.schoolsOutcome = .timeout → ls.librariesOutcome.isOk = true →
      (librariesSchoolsGET ls lat lng).1 = .error 500 "Internal server error" ∧
      Stmt.begin ∉ (librariesSchoolsGET ls lat lng).2) ∧
    (nb.outcome = .timeout →
      nearbyGET nb lat lng radius
        = (.error 500 "Internal server error",
           [.query "nearby_pois" [lng, lat, radius]])) ∧
    (sn.outcome = .timeout →
      snapToRoadGET sn lat lng
        = (.error 500 "Internal server error",
           [.query "snap_to_road" [lng, lat]])) := by
  have hnot : ¬ parseZoom zParam < 10 := not_lt.mpr hz
  have hpp : parseParcelId (some (.num pid)) = some pid := by
    simp [parseParcelId, hpid]
  refine ⟨?_, ?_, ?_, ?_, ?_, ?_, ?_, ?_, ?_, ?_, ?_, ?_, ?_, ?_⟩
  · intro h
    simp [parcelsGET, hbb, hnot, h]
  · intro h
    simp [parcelsGET, hbb, hnot, h]
  · intro h
    simp [addressesGET, hpp, parseBbox, h]
  · intro h
    simp [addressesGET, hpp, parseBbox, h]
  · intro h1 h2
    simp [parcelAddressesGET, hpid.not_le, h1, h2]
  · intro h1 h2
    simp [parcelAddressesGET, hpid.not_le, h1, h2]
  · intro h
    simp [addressParcelGET, hpid.not_le, h]
  · intro h
    simp [addressParcelGET, hpid.not_le, h]
  · intro h
    simp [searchGET, hq, h]
  · intro h
    simp [searchGET, hq, h]
  · intro h
    rcases n5 with ⟨out⟩
    cases out <;> simp_all [nearest5SchoolsGET, hlat, hlng]
  · intro h hlib
    rcases ls with ⟨lo, so⟩
    cases lo <;> cases so <;>
      simp_all [librariesSchoolsGET, QueryOutcome.isOk, hlat, hlng]
  · intro h
    rcases nb with ⟨out⟩
    cases out <;> simp_all [nearbyGET, hlat, hlng]
  · intro h
    rcases sn with ⟨out⟩
    cases out <;> simp_all [snapToRoadGET, hlat, hlng]

/-- Witness for `C4_amended` with every oracle timing out: parcels at zoom
15, parcel-mode addresses, parcel-addresses (both tiers), address-parcel and
search on the transactional side; nearest-5-schools, the combined endpoint,
nearby and snap-to-road on the non-transactional side. -/
theorem C4_amended_witness :
    (parseBbox sampleBboxParam = some (-80, 43, -79, 44) ∧
     10 ≤ parseZoom (some (.num 15)) ∧ (0 : ℚ) < 5 ∧
     parseQuery (some "main") = some "main" ∧
     (JSNum.num 43).truthy = true ∧ (JSNum.num (-79)).truthy = true) ∧
    (((⟨[], .timeout⟩ : ParcelsDB).outcome = .timeout →
      parcelsGET ⟨[], .timeout⟩ sampleBboxParam (some (.num 15))
        = (.error 504 "Query timeout, zoom in or try again",
           [.begin, .setStatementTimeout 2500,
            .query "parcels_bbox"
              [.num (-80), .num 43, .num (-79), .num 44,
               .num (toleranceForZoom (parseZoom (some (.num 15))))],
            .rollback])) ∧
     ((⟨[], .timeout⟩ : ParcelsDB).outcome = .failure →
      (parcelsGET ⟨[], .timeout⟩ sampleBboxParam (some (.num 15))).1
        = .error 500 "Database query failed") ∧
     ((⟨[], [], [], true, .timeout⟩ : AddressesDB).outcome = .timeout →
      addressesGET ⟨[], [], [], true, .timeout⟩ (some (.num 5)) none
          (some (.num 12))
        = (.error 504 "Query timeout",
           [.begin, .setStatementTimeout 2500, .tableCheck,
            (if (⟨[], [], [], true, .timeout⟩ : AddressesDB).addressParcelsExists
             then Stmt.query "addresses_precomputed" [.num 5]
             else Stmt.query "addresses_spatial_join" [.num 5]),
            .rollback])) ∧
     ((⟨[], [], [], true, .timeout⟩ : AddressesDB).outcome = .failure →
      (addressesGET ⟨[], [], [], true, .timeout⟩ (some (.num 5)) none
          (some (.num 12))).1
        = .error 500 "Database query failed") ∧
     ((⟨true, .timeout, .timeout⟩ : ParcelAddrDB).enhanced = .timeout →
      (⟨true, .timeout, .timeout⟩ : ParcelAddrDB).basic = .timeout →
      (parcelAddressesGET ⟨true, .timeout, .timeout⟩ (.num 5)).1
        = .error 504 "Query timeout") ∧
     ((⟨true, .timeout, .timeout⟩ : ParcelAddrDB).enhanced = .timeout →
      (⟨true, .timeout, .timeout⟩ : ParcelAddrDB).basic = .failure →
      (parcelAddressesGET ⟨true, .timeout, .timeout⟩ (.num 5)).1
        = .error 500 "Database query failed") ∧
     ((⟨true, .timeout⟩ : AddressParcelDB).outcome = .timeout →
      addressParcelGET ⟨true, .timeout⟩ (.num 5)
        = (.error 504 "Query timeout",
           [.begin, .setStatementTimeout 2500, .tableCheck,
            (if (⟨true, .timeout⟩ : AddressParcelDB).tableExists
             then Stmt.query "parcel_by_address_precomputed" [.num 5]
             else Stmt.query "parcel_by_address_spatial" [.num 5]),
            .rollback])) ∧
     ((⟨true, .timeout⟩ : AddressParcelDB).outcome = .failure →
      (addressParcelGET ⟨true, .timeout⟩ (.num 5)).1
        = .error 500 "Database query failed") ∧
     ((⟨.timeout⟩ : SearchDB).outcome = .timeout →
      searchGET ⟨.timeout⟩ (some "main") none
        = (.error 504 "Search timeout, try a more specific query",
           [.begin, .setStatementTimeout 3000,
            .searchQuery "main" (parseLimit none), .rollback])) ∧
     ((⟨.timeout⟩ : SearchDB).outcome = .failure →
      (searchGET ⟨.timeout⟩ (some "main") none).1 = .error 500 "Search failed") ∧
     ((⟨.timeout⟩ : Nearest5DB).outcome = .timeout →
      nearest5SchoolsGET ⟨.timeout⟩ (.num 43) (.num (-79))
        = (.error 500 "Database query failed",
           [.query "nearest_5_schools" [.num (-79), .num 43]])) ∧
     ((⟨.ok [librarySample], .timeout⟩ : LibSchoolDB).schoolsOutcome = .timeout →
      (⟨.ok [librarySample], .timeout⟩ : LibSchoolDB).librariesOutcome.isOk = true →
      (librariesSchoolsGET ⟨.ok [librarySample], .timeout⟩ (.num 43) (.num (-79))).1
        = .error 500 "Internal server error" ∧
      Stmt.begin ∉
        (librariesSchoolsGET ⟨.ok [librarySample], .timeout⟩ (.num 43) (.num (-79))).2) ∧
     ((⟨.timeout⟩ : NearbyDB).outcome = .timeout →
      nearbyGET ⟨.timeout⟩ (.num 43) (.num (-79)) (.num 2000)
        = (.error 500 "Internal server error",
           [.query "nearby_pois" [.num (-79), .num 43, .num 2000]])) ∧
     ((⟨.timeout⟩ : SnapDB).outcome = .timeout →
      snapToRoadGET ⟨.timeout⟩ (.num 43) (.num (-79))
        = (.error 500 "Internal server error",
           [.query "snap_to_road" [.num (-79), .num 43]]))) :=
  ⟨⟨by decide, by decide, by norm_num, by decide, by decide, by decide⟩,
   C4_amended ⟨[], .timeout⟩ sampleBboxParam (some (.num 15)) (-80) 43 (-79) 44
     (by decide) (by decide)
     ⟨[], [], [], true, .timeout⟩ (some (.num 12))
     ⟨true, .timeout, .timeout⟩ ⟨true, .timeout⟩ 5 (by norm_num)
     ⟨.timeout⟩ (some "main") none "main" (by decide)
     ⟨.timeout⟩ ⟨.ok [librarySample], .timeout⟩ ⟨.timeout⟩ ⟨.timeout⟩
     (.num 43) (.num (-79)) (.num 2000) (by decide) (by decide)⟩

/-- C8: whenever the enhanced query of the parcel-addresses endpoint fails
for any reason, the handler retries exactly once, inside a fresh transaction
(ROLLBACK, BEGIN, SET LOCAL statement_timeout) with the reduced-column basic
query, and then gives up; the basic fallback runs at most once per request
and never runs when the enhanced query succeeds. -/
theorem C8_fallback_once (db : ParcelAddrDB) (pid : ℚ) (hpid : 0 < pid) :
    countQueriesNamed (basicQueryName db) (parcelAddressesGET db (.num pid)).2
      = (if db.enhanced.isOk then 0 else 1) ∧
    countQueriesNamed (enhancedQueryName db) (parcelAddressesGET db (.num pid)).2
      = 1 ∧
    (db.enhanced.isOk = false →
      (parcelAddressesGET db (.num pid)).2
        = [.begin, .setStatementTimeout 2500, .tableCheck,
           .query (enhancedQueryName db) [.num pid],
           .rollback, .begin, .setStatementTimeout 2500,
           .query (basicQueryName db) [.num pid]]
          ++ (if db.basic.isOk then [Stmt.commit] else [Stmt.rollback])) := by
  have hnot : ¬ pid ≤ 0 := hpid.not_le
  rcases db with ⟨te, enh, bas⟩
  cases te <;> cases enh <;> cases bas <;>
    simp [parcelAddressesGET, hnot, countQueriesNamed, enhancedQueryName,
      basicQueryName, QueryOutcome.isOk]

/-- Witness for `C8_fallback_once`: precomputed table present, enhanced query
fails, basic query succeeds, parcel id 5. -/
theorem C8_fallback_once_witness :
    (0 : ℚ) < 5 ∧
    (countQueriesNamed (basicQueryName ⟨true, .failure, .ok []⟩)
        (parcelAddressesGET ⟨true, .failure, .ok []⟩ (.num 5)).2
      = (if (QueryOutcome.failure : QueryOutcome (List AddressRow)).isOk then 0 else 1) ∧
     countQueriesNamed (enhancedQueryName ⟨true, .failure, .ok []⟩)
        (parcelAddressesGET ⟨true, .failure, .ok []⟩ (.num 5)).2 = 1 ∧
     ((QueryOutcome.failure : QueryOutcome (List AddressRow)).isOk = false →
      (parcelAddressesGET ⟨true, .failure, .ok []⟩ (.num 5)).2
        = [.begin, .setStatementTimeout 2500, .tableCheck,
           .query (enhancedQueryName ⟨true, .failure, .ok []⟩) [.num 5],
           .rollback, .begin, .setStatementTimeout 2500,
           .query (basicQueryName ⟨true, .failure, .ok []⟩) [.num 5]]
          ++ (if (QueryOutcome.ok ([] : List AddressRow)).isOk
              then [Stmt.commit] else [Stmt.rollback]))) :=
  ⟨by norm_num, C8_fallback_once ⟨true, .failure, .ok []⟩ 5 (by norm_num)⟩

/-- C6 counterexample: after selecting parcel 7, choosing an address and
letting the schools/libraries overlays load, clicking parcel 7 again returns
the selection to Unselected and clears the addresses and the buffer — but
the schools and libraries overlays and the selected address are NOT cleared,
contradicting the claim that the toggle-off clears the cross-reference
panels and overlays. -/
theorem C6_counterexample :
    (clickParcel addrForSample clickPtSample c6State 7).selectedId = none ∧
    (clickParcel addrForSample clickPtSample c6State 7).selectedParcelId = none ∧
    (clickParcel addrForSample clickPtSample c6State 7).addressesSource = [] ∧
    (clickParcel addrForSample clickPtSample c6State 7).bufferSource = none ∧
    (clickParcel addrForSample clickPtSample c6State 7).schoolsSource
      = [schoolSample] ∧
    (clickParcel addrForSample clickPtSample c6State 7).librariesSource
      = [librarySample] ∧
    (clickParcel addrForSample clickPtSample c6State 7).selectedAddress
      = some addrSample ∧
    [schoolSample] ≠ ([] : List SchoolRow) := by
  refine ⟨by decide, by decide, by decide, by decide, by decide, by decide,
    by decide, by decide⟩

/-- C6 amended: clicking the already-selected parcel X returns the selection
to Unselected, clears the loaded addresses and the 2 km buffer overlay and
unmounts the panels (selectedParcelId becomes none), but leaves the
schools/libraries map overlays and the selected-address state untouched —
only `clearParcelSelection` (the close-table path) performs the full clear;
clicking a different parcel Y selects Y with addresses reloaded for Y. -/
theorem C6_amended (addrFor : ℤ → List AddrFeature) (pt : PointGeom)
    (s : UIState) (X Y : ℤ) (hsel : s.selectedId = some X) (hne : Y ≠ X) :
    clickParcel addrFor pt s X
      = { s with selectedId := none, addressesSource := [],
                 selectedParcelId := none, bufferSource := none } ∧
    (clickParcel addrFor pt s X).schoolsSource = s.schoolsSource ∧
    (clickParcel addrFor pt s X).librariesSource = s.librariesSource ∧
    (clickParcel addrFor pt s X).selectedAddress = s.selectedAddress ∧
    clickParcel addrFor pt s Y
      = { s with selectedId := some Y, addressesSource := addrFor Y,
                 selectedParcelId := some Y, bufferSource := some pt } ∧
    clearParcelSelection s
      = { s with selectedId := none, addressesSource := [],
                 selectedParcelId := none, selectedAddress := none,
                 schoolsSource := [], librariesSource := [],
                 bufferSource := none } := by
  refine ⟨?_, ?_, ?_, ?_, ?_, rfl⟩ <;>
    simp [clickParcel, hsel, Ne.symm hne]

/-- Witness for `C6_amended` in the scenario state, toggling X = 7 off and
selecting Y = 8. -/
theorem C6_amended_witness :
    (c6State.selectedId = some 7 ∧ (8 : ℤ) ≠ 7) ∧
    (clickParcel addrForSample clickPtSample c6State 7
       = { c6State with selectedId := none, addressesSource := [],
                        selectedParcelId := none, bufferSource := none } ∧
     (clickParcel addrForSample clickPtSample c6State 7).schoolsSource
       = c6State.schoolsSource ∧
     (clickParcel addrForSample clickPtSample c6State 7).librariesSource
       = c6State.librariesSource ∧
     (clickParcel addrForSample clickPtSample c6State 7).selectedAddress
       = c6State.selectedAddress ∧
     clickParcel addrForSample clickPtSample c6State 8
       = { c6State with selectedId := some 8,
                        addressesSource := addrForSample 8,
                        selectedParcelId := some 8,
                        bufferSource := some clickPtSample } ∧
     clearParcelSelection c6State
       = { c6State with selectedId := none, addressesSource := [],
                        selectedParcelId := none, selectedAddress := none,
                        schoolsSource := [], librariesSource := [],
                        bufferSource := none }) :=
  ⟨⟨by decide, by decide⟩,
   C6_amended addrForSample clickPtSample c6State 7 8 (by decide) (by decide)⟩

/-- C3: for viewport changes A then B above the minimum zoom, where B's
moveend arrives after A's debounce fired (so A's fetch is in flight), the
parcels layer ends up showing B's data whichever order the two responses
arrive in: B's moveend aborts A's controller, so A's response is discarded
even when it arrives after B's. -/
theorem C3_cancellation_race (A B : Viewport) (hA : 10 ≤ A.zoom)
    (hB : 10 ≤ B.zoom) :
    (runClient initClient
      [.moveend A, .debounceFire, .moveend B, .debounceFire,
       .response 0 A, .response 1 B]).parcelsLayer = some B ∧
    (runClient initClient
      [.moveend A, .debounceFire, .moveend B, .debounceFire,
       .response 1 B, .response 0 A]).parcelsLayer = some B := by
  have hA2 : ¬ A.zoom < 10 := not_lt.mpr hA
  have hB2 : ¬ B.zoom < 10 := not_lt.mpr hB
  constructor <;>
    simp [runClient, stepClient, initClient, hA2, hB2, List.filter]

/-- Witness for `C3_cancellation_race` with viewports at zoom 12 and 15. -/
theorem C3_cancellation_race_witness :
    (10 ≤ vpA.zoom ∧ 10 ≤ vpB.zoom) ∧
    ((runClient initClient
       [.moveend vpA, .debounceFire, .moveend vpB, .debounceFire,
        .response 0 vpA, .response 1 vpB]).parcelsLayer = some vpB ∧
     (runClient initClient
       [.moveend vpA, .debounceFire, .moveend vpB, .debounceFire,
        .response 1 vpB, .response 0 vpA]).parcelsLayer = some vpB) :=
  ⟨⟨by norm_num [vpA], by norm_num [vpB]⟩,
   C3_cancellation_race vpA vpB (by norm_num [vpA]) (by norm_num [vpB])⟩

/-- C9: for a valid bbox and zoom z at least 10, with the data query
succeeding, the parcels endpoint returns exactly the modelled query result:
at most 2000 features, the candidate set is a permutation of all bbox
matches ordered by descending area so that every dropped candidate has area
at most that of every returned feature, and every returned geometry is
simplified at the tolerance determined by z. -/
theorem C9_capped_ordered_simplified (db : ParcelsDB)
    (bboxParam : Option (List JSNum)) (zParam : Option JSNum)
    (minX minY maxX maxY : ℚ)
    (hbb : parseBbox bboxParam = some (minX, minY, maxX, maxY))
    (hz : 10 ≤ parseZoom zParam) (hok : db.outcome = .ok ()) :
    (parcelsGET db bboxParam zParam).1
      = .ok ⟨parcelsQueryRows db.parcels minX minY maxX maxY
              (toleranceForZoom (parseZoom zParam))⟩ ∧
    (parcelsQueryRows db.parcels minX minY maxX maxY
       (toleranceForZoom (parseZoom zParam))).length ≤ 2000 ∧
    (∀ f ∈ parcelsQueryRows db.parcels minX minY maxX maxY
        (toleranceForZoom (parseZoom zParam)),
      f.geometry.tol = toleranceForZoom (parseZoom zParam)) ∧
    List.Sorted featAreaDesc
      (parcelsQueryRows db.parcels minX minY maxX maxY
        (toleranceForZoom (parseZoom zParam))) ∧
    (parcelCandidates db.parcels minX minY maxX maxY).Perm
      (db.parcels.filter fun p => bboxIntersects p.geom minX minY maxX maxY) ∧
    (∀ f ∈ parcelsQueryRows db.parcels minX minY maxX maxY
        (toleranceForZoom (parseZoom zParam)),
     ∀ p ∈ (parcelCandidates db.parcels minX minY maxX maxY).drop 2000,
      p.geom.area ≤ f.geometry.source.area) := by
  have hs : List.Sorted areaDesc (parcelCandidates db.parcels minX minY maxX maxY) :=
    List.sorted_insertionSort areaDesc _
  refine ⟨?_, ?_, ?_, ?_, ?_, ?_⟩
  · simp [parcelsGET, hbb, not_lt.mpr hz, hok]
  · simp only [parcelsQueryRows, List.length_map, List.length_take]
    exact min_le_left _ _
  · intro f hf
    simp only [parcelsQueryRows, List.mem_map] at hf
    obtain ⟨p, -, rfl⟩ := hf
    rfl
  · have ht : ((parcelCandidates db.parcels minX minY maxX maxY).take 2000).Pairwise
        areaDesc :=
      List.Pairwise.sublist (List.take_sublist _ _) hs
    rw [List.Sorted, parcelsQueryRows, List.pairwise_map]
    exact ht.imp fun h => h
  · exact List.perm_insertionSort areaDesc _
  · have hsplit := hs
    rw [← List.take_append_drop 2000 (parcelCandidates db.parcels minX minY maxX maxY)]
      at hsplit
    have h6 := (List.pairwise_append.mp hsplit).2.2
    intro f hf p hp
    simp only [parcelsQueryRows, List.mem_map] at hf
    obtain ⟨q, hq, rfl⟩ := hf
    exact h6 q hq p hp

/-- Witness for `C9_capped_ordered_simplified` on a three-parcel database at
zoom 15 with the sample bbox. -/
theorem C9_capped_ordered_simplified_witness :
    (parseBbox sampleBboxParam = some (-80, 43, -79, 44) ∧
     10 ≤ parseZoom (some (.num 15)) ∧
     sampleParcelsDB.outcome = .ok ()) ∧
    ((parcelsGET sampleParcelsDB sampleBboxParam (some (.num 15))).1
       = .ok ⟨parcelsQueryRows sampleParcelsDB.parcels (-80) 43 (-79) 44
               (toleranceForZoom (parseZoom (some (.num 15))))⟩ ∧
     (parcelsQueryRows sampleParcelsDB.parcels (-80) 43 (-79) 44
        (toleranceForZoom (parseZoom (some (.num 15))))).length ≤ 2000 ∧
     (∀ f ∈ parcelsQueryRows sampleParcelsDB.parcels (-80) 43 (-79) 44
         (toleranceForZoom (parseZoom (some (.num 15)))),
       f.geometry.tol = toleranceForZoom (parseZoom (some (.num 15)))) ∧
     List.Sorted featAreaDesc
       (parcelsQueryRows sampleParcelsDB.parcels (-80) 43 (-79) 44
         (toleranceForZoom (parseZoom (some (.num 15))))) ∧
     (parcelCandidates sampleParcelsDB.parcels (-80) 43 (-79) 44).Perm
       (sampleParcelsDB.parcels.filter fun p =>
         bboxIntersects p.geom (-80) 43 (-79) 44) ∧
     (∀ f ∈ parcelsQueryRows sampleParcelsDB.parcels (-80) 43 (-79) 44
         (toleranceForZoom (parseZoom (some (.num 15)))),
      ∀ p ∈ (parcelCandidates sampleParcelsDB.parcels (-80) 43 (-79) 44).drop 2000,
       p.geom.area ≤ f.geometry.source.area)) :=
  ⟨⟨by decide, by decide, by decide⟩,
   C9_capped_ordered_simplified sampleParcelsDB sampleBboxParam (some (.num 15))
     (-80) 43 (-79) 44 (by decide) (by decide) (by decide)⟩

end TorontoMap
